import Mathlib

/-!
Verification of the swww-manager daemon control loop, a shallow embedding
of src/src/main.rs.  Machine integers are modeled as Nat, fallible Rust
operations as Except, and the tokio task structure as explicit traces of
events.  Each definition states in its doc comment which lines of the
source it translates.
-/

deriving instance DecidableEq for Except

namespace SwwwManager

/-- Model of the Rust str::trim call in listen_loop (src/src/main.rs line
146) on the character list of a string: drop whitespace characters from
both ends. -/
def trimChars (cs : List Char) : List Char :=
  ((cs.dropWhile Char.isWhitespace).reverse.dropWhile Char.isWhitespace).reverse

/-- Rust str::trim lifted to String. -/
def strTrim (s : String) : String :=
  String.mk (trimChars s.data)

/-- ControlMessage: the classification of one received line, derived from
the match arms at src/src/main.rs lines 146-151. -/
inductive ControlMessage where
  | pause
  | unpause
  | kill
  | unrecognized (s : String)
deriving DecidableEq, Repr

/-- Classification of one received line: trim, then case-sensitive match
against the literals pause / unpause / kill; any other trimmed line is
unrecognized (src/src/main.rs lines 146-151). -/
def classify (line : String) : ControlMessage :=
  if strTrim line = "pause" then ControlMessage.pause
  else if strTrim line = "unpause" then ControlMessage.unpause
  else if strTrim line = "kill" then ControlMessage.kill
  else ControlMessage.unrecognized (strTrim line)

/-- Effect of one ControlMessage on the shared pause flag: pause writes
true, unpause writes false, kill and unrecognized leave it unchanged
(src/src/main.rs lines 147-150). -/
def applyControl (m : ControlMessage) (paused : Bool) : Bool :=
  match m with
  | .pause => true
  | .unpause => false
  | .kill => paused
  | .unrecognized _ => paused

/-- The pause flag after a sequence of control messages has been applied
in order, starting from the given value. -/
def applySeq (cs : List ControlMessage) (b : Bool) : Bool :=
  cs.foldl (fun b m => applyControl m b) b

/-- The value a pause or unpause command sets the flag to (spec section
4.1: pause sets true, unpause sets false). -/
def cmdSetsTo (m : ControlMessage) : Bool :=
  match m with
  | .pause => true
  | _ => false

/-- Outcome of one iteration of the listen_loop body (src/src/main.rs
lines 141-153): the loop exits with an error, continues with an updated
flag, or breaks normally on kill. -/
inductive ChannelStep where
  | fail (e : String)
  | continueLoop (pausedAfter : Bool)
  | exitOk (pausedAfter : Bool)
deriving DecidableEq, Repr

/-- One iteration of listen_loop (src/src/main.rs lines 141-153).  The
connection either delivers a line or an accept/read error; an error is
propagated out of the loop by the question mark operator.  A delivered
line is classified: kill breaks with Ok, every other message updates the
flag per applyControl and the loop continues (an unrecognized message is
only logged). -/
def listenStep (paused : Bool) (conn : Except String String) : ChannelStep :=
  match conn with
  | .error e => ChannelStep.fail e
  | .ok line =>
    match classify line with
    | .kill => ChannelStep.exitOk paused
    | m => ChannelStep.continueLoop (applyControl m paused)

/-- listen_loop run over a finite prefix of incoming connections: returns
the loop result once the loop has exited (none while it is still
accepting), the final pause flag, and the number of connections consumed
(src/src/main.rs lines 141-153). -/
def runChannel : Bool → List (Except String String) → Option (Except String Unit) × Bool × Nat
  | paused, [] => (none, paused, 0)
  | paused, conn :: rest =>
    match listenStep paused conn with
    | .fail e => (some (Except.error e), paused, 1)
    | .exitOk p => (some (Except.ok ()), p, 1)
    | .continueLoop p =>
      let r := runChannel p rest
      (r.1, r.2.1, r.2.2 + 1)

/-- listen_loop including its prologue (src/src/main.rs lines 138-140): a
get_socket_location error or a bind error is propagated immediately, so
the loop exits with that error having consumed zero connections;
otherwise the accept loop runs. -/
def listenLoopRun (socketLoc : Except String Unit) (bindRes : Except String Unit)
    (paused : Bool) (conns : List (Except String String)) :
    Option (Except String Unit) × Bool × Nat :=
  match socketLoc with
  | .error e => (some (Except.error e), paused, 0)
  | .ok _ =>
    match bindRes with
    | .error e => (some (Except.error e), paused, 0)
    | .ok _ => runChannel paused conns

/-- Result of one rotation tick of set_loop (src/src/main.rs lines
116-134).  A Rust usize remainder panics when the divisor is zero, so an
unpaused tick over an empty file list is a panic, not a no-op. -/
inductive TickResult where
  | panicked (msg : String)
  | skipped
  | invoked (img : String)
deriving DecidableEq, Repr

/-- Whether a tick invoked the external setter. -/
def TickResult.isInvoked : TickResult → Bool
  | .invoked _ => true
  | _ => false

/-- One tick body of set_loop (src/src/main.rs lines 116-134): the pause
flag is read at the tick boundary and a true value skips the cycle;
otherwise the code computes rand % files.len(), which in Rust panics when
the list is empty, and invokes the setter on the file at that index. -/
def setTick (files : List String) (paused : Bool) (r : Nat) : TickResult :=
  if paused then TickResult.skipped
  else if h : 0 < files.length then
    TickResult.invoked (files.get ⟨r % files.length, Nat.mod_lt r h⟩)
  else TickResult.panicked "attempt to calculate the remainder with a divisor of zero"

/-- A run of set_loop over a sequence of ticks, each tick carrying the
pause flag read at its boundary and the pseudo-random draw.  The interval
timer is fixed-rate, so every tick yields exactly one TickResult and a
skipped tick is not made up later. -/
def setRun (files : List String) : List (Bool × Nat) → List TickResult
  | [] => []
  | t :: rest => setTick files t.1 t.2 :: setRun files rest

/-- The first terminal event observed by the coordinator poll loop in
init (src/src/main.rs lines 185-199): a SIGINT/SIGTERM handler finished,
the backend process exited, the listen task finished with its result, or
the set task finished (set_loop can only finish with an error because its
loop has no normal exit). -/
inductive TerminalEvent where
  | signal
  | backendExited
  | listenFinished (r : Except String Unit)
  | setFinished (e : String)
deriving DecidableEq, Repr

/-- The Result value init returns for each terminal event
(src/src/main.rs lines 185-199): a signal returns Ok, a dead backend
bails with an error, a finished task propagates its own result. -/
def initResult : TerminalEvent → Except String Unit
  | .signal => Except.ok ()
  | .backendExited => Except.error "swww-daemon failed to run/crashed"
  | .listenFinished r => r
  | .setFinished e => Except.error e

/-- Spec classification (spec section 4.4): an outcome is graceful when
it is a termination signal or an explicit client kill (the listen task
finishing with Ok), fatal otherwise. -/
def gracefulOutcome : TerminalEvent → Bool
  | .signal => true
  | .listenFinished (.ok _) => true
  | _ => false

/-- What main does with the Result of init (src/src/main.rs lines
96-104): an error is printed to stderr with the prefix Daemon error and
main then returns normally, so the process exit status is 0 in both
cases.  The pair is the exit status and the optional stderr message. -/
def mainExit : Except String Unit → Nat × Option String
  | .ok _ => (0, none)
  | .error e => (0, some ("Daemon error: " ++ e))

/-- Resource acquisition and release events of one daemon run. -/
inductive ResEvent where
  | spawnBackend
  | killBackend
  | bindSocket
  | removeSocket
deriving DecidableEq, Repr

/-- Which fallible startup steps of init succeed in a given run. -/
structure DaemonEnv where
  spawnOk : Bool
  readDirOk : Bool
  runtimeDirOk : Bool
  bindOk : Bool
deriving DecidableEq, Repr

/-- The resource events of a whole daemon run, following init
(src/src/main.rs lines 156-199) together with the Rust drop semantics the
code relies on: the backend child is spawned with kill_on_drop true (line
170), so dropping its handle kills the process, and DropUnixListener
removes the socket file in its Drop impl (lines 58-69); every early
return from init drops the handle, and the runtime shutdown at the end of
main drops the spawned tasks and hence the listener.  A failed spawn
acquires nothing; a failed read_dir returns after the spawn; a failed
get_socket_location or bind means the listen task never owns a listener.
The relative order of the two release events varies with the exit path
and no theorem below depends on it. -/
def daemonTrace (env : DaemonEnv) : List ResEvent :=
  if env.spawnOk = false then []
  else if env.readDirOk = false then [ResEvent.spawnBackend, ResEvent.killBackend]
  else if env.runtimeDirOk && env.bindOk then
    [ResEvent.spawnBackend, ResEvent.bindSocket, ResEvent.killBackend, ResEvent.removeSocket]
  else [ResEvent.spawnBackend, ResEvent.killBackend]

/-- The externally visible resources: is the backend process alive, does
the socket file exist. -/
structure Resources where
  backendAlive : Bool
  socketExists : Bool
deriving DecidableEq, Repr

/-- Effect of one resource event. -/
def applyRes (s : Resources) : ResEvent → Resources
  | .spawnBackend => { s with backendAlive := true }
  | .killBackend => { s with backendAlive := false }
  | .bindSocket => { s with socketExists := true }
  | .removeSocket => { s with socketExists := false }

/-- Resource state after a trace, starting from nothing acquired. -/
def resourcesAfter (t : List ResEvent) : Resources :=
  t.foldl applyRes ⟨false, false⟩

/-- Startup events of init in program order. -/
inductive StartEvent where
  | spawnSignalTasks
  | spawnBackendProc
  | scanDir
  | spawnChannelTask
  | spawnSchedulerTask
  | surfaceBindFailure
deriving DecidableEq, Repr

/-- Order of startup events in init (src/src/main.rs lines 156-199): the
signal tasks (157, 163), the backend spawn (169), the directory scan
(172), the channel task spawn (178) and the scheduler task spawn (179)
all execute before the coordinator poll loop starts.  The socket bind
happens inside the already spawned channel task (listen_loop line 140),
so a bind failure only surfaces when the poll loop sees that the channel
task finished (line 193), after every spawn statement has run. -/
def initStartTrace (bindOk : Bool) : List StartEvent :=
  [StartEvent.spawnSignalTasks, StartEvent.spawnBackendProc, StartEvent.scanDir,
   StartEvent.spawnChannelTask, StartEvent.spawnSchedulerTask]
    ++ if bindOk then [] else [StartEvent.surfaceBindFailure]

/-- Input and output actions of the client send path. -/
inductive IoAction where
  | writeBytes (s : String)
  | flush
  | readBytes
deriving DecidableEq, Repr

/-- The client send path (src/src/main.rs lines 202-210): writeln appends
the message and a newline to a buffer, write_all sends the buffer, flush
follows, and the function returns without ever reading from the
stream. -/
def sendActions (msg : String) : List IoAction :=
  [IoAction.writeBytes (msg ++ "\n"), IoAction.flush]

/-- The bytes send puts on the wire for a message. -/
def sendWire (msg : String) : String := msg ++ "\n"

/-- read_line on the stream contents (src/src/main.rs line 145): consume
characters up to and including the first newline. -/
def readLineChars : List Char → List Char
  | [] => []
  | c :: cs => if c = '\n' then [c] else c :: readLineChars cs

/-- read_line lifted to String. -/
def readLine (s : String) : String :=
  String.mk (readLineChars s.data)

/-- C1: the claim says an unpaused rotation tick over an empty FileList is
a no-op or a reported error and never divides by the empty length.  The
code at src/src/main.rs line 120 computes rand % files.len() before any
emptiness check, and a Rust remainder with divisor zero panics, so the
tick panics for every draw. -/
theorem C1_empty_list_tick_panics (r : Nat) :
    setTick [] false r =
      TickResult.panicked "attempt to calculate the remainder with a divisor of zero" := rfl

/-- C2 counterexample: the backend crash outcome is fatal, yet the daemon
process exit status is 0 (success) because main only prints the error
(src/src/main.rs lines 100-102), refuting the claim that fatal outcomes
yield a failure status. -/
theorem C2_counterexample :
    gracefulOutcome TerminalEvent.backendExited = false ∧
    (mainExit (initResult TerminalEvent.backendExited)).1 = 0 := by decide

/-- C2 amended: every terminal outcome of the daemon exits with status 0;
graceful and fatal outcomes are distinguished only by whether a Daemon
error message is printed to stderr, not by the exit status. -/
theorem C2_exit_status_amended (t : TerminalEvent) :
    (mainExit (initResult t)).1 = 0 ∧
    (gracefulOutcome t = true ↔ (mainExit (initResult t)).2 = none) := by
  cases t with
  | signal => simp [gracefulOutcome, initResult, mainExit]
  | backendExited => simp [gracefulOutcome, initResult, mainExit]
  | listenFinished r => cases r <;> simp [gracefulOutcome, initResult, mainExit]
  | setFinished e => simp [gracefulOutcome, initResult, mainExit]

/-- C3: on every daemon run, whatever combination of startup steps
succeeds or fails and whichever exit path is taken, the resource trace
kills the backend exactly as often as it spawns it and removes the socket
file exactly as often as it binds it, and the final state has no live
backend and no socket file: cleanup is never skipped. -/
theorem C3_cleanup_on_every_exit (env : DaemonEnv) :
    resourcesAfter (daemonTrace env) = ⟨false, false⟩ ∧
    (daemonTrace env).count ResEvent.killBackend =
      (daemonTrace env).count ResEvent.spawnBackend ∧
    (daemonTrace env).count ResEvent.removeSocket =
      (daemonTrace env).count ResEvent.bindSocket := by
  rcases env with ⟨s, rd, rt, b⟩
  cases s <;> cases rd <;> cases rt <;> cases b <;> decide

/-- C4 counterexample: when the bind fails, the backend spawn, the channel
task spawn and the scheduler task spawn all appear in the startup trace
strictly before the bind failure is surfaced, refuting the claim that no
backend process, scheduler task or channel task exists at that point. -/
theorem C4_counterexample :
    StartEvent.surfaceBindFailure ∈ initStartTrace false ∧
    (initStartTrace false).indexOf StartEvent.spawnBackendProc <
      (initStartTrace false).indexOf StartEvent.surfaceBindFailure ∧
    (initStartTrace false).indexOf StartEvent.spawnChannelTask <
      (initStartTrace false).indexOf StartEvent.surfaceBindFailure ∧
    (initStartTrace false).indexOf StartEvent.spawnSchedulerTask <
      (initStartTrace false).indexOf StartEvent.surfaceBindFailure := by decide

/-- C4 amended: a bind failure is fatal — the channel task finishes with
the bind error before consuming any connection, init propagates that
error and main reports it — but by the time the failure is surfaced the
backend process, the channel task and the scheduler task have all already
been spawned. -/
theorem C4_bind_failure_fatal_after_spawns (e : String)
    (conns : List (Except String String)) :
    listenLoopRun (Except.ok ()) (Except.error e) false conns =
      (some (Except.error e), false, 0) ∧
    initResult (TerminalEvent.listenFinished (Except.error e)) = Except.error e ∧
    (mainExit (initResult (TerminalEvent.listenFinished (Except.error e)))).2 =
      some ("Daemon error: " ++ e) ∧
    initStartTrace false =
      [StartEvent.spawnSignalTasks, StartEvent.spawnBackendProc, StartEvent.scanDir,
       StartEvent.spawnChannelTask, StartEvent.spawnSchedulerTask,
       StartEvent.surfaceBindFailure] :=
  ⟨rfl, rfl, rfl, rfl⟩

/-- C5 counterexample: a read error on the first connection makes the
channel loop exit with that error after consuming only that connection;
the following connection (a valid pause command) is never accepted and
the flag is never updated, refuting the claim that the loop continues. -/
theorem C5_counterexample :
    runChannel false [Except.error "connection reset", Except.ok "pause"] =
      (some (Except.error "connection reset"), false, 1) := by decide

/-- C5 amended: an accept or read error on a connection is fatal to the
channel loop: the question mark operator propagates it, the loop exits
with the error without processing any later connection, and the
coordinator surfaces it as the daemon result. -/
theorem C5_read_error_fatal (paused : Bool) (e : String)
    (rest : List (Except String String)) :
    runChannel paused (Except.error e :: rest) = (some (Except.error e), paused, 1) ∧
    initResult (TerminalEvent.listenFinished (Except.error e)) = Except.error e :=
  ⟨rfl, rfl⟩

/-- C6: classification of a received line first trims whitespace and then
matches case-sensitively: a line trimming to pause sets the flag true and
the loop continues, unpause sets it false and continues, kill makes the
loop exit normally, and any other line is classified unrecognized, is
non-fatal, and the loop continues with the flag unchanged. -/
theorem C6_classification (line : String) (paused : Bool) :
    (strTrim line = "pause" →
      listenStep paused (Except.ok line) = ChannelStep.continueLoop true) ∧
    (strTrim line = "unpause" →
      listenStep paused (Except.ok line) = ChannelStep.continueLoop false) ∧
    (strTrim line = "kill" →
      listenStep paused (Except.ok line) = ChannelStep.exitOk paused) ∧
    (strTrim line ≠ "pause" → strTrim line ≠ "unpause" → strTrim line ≠ "kill" →
      classify line = ControlMessage.unrecognized (strTrim line) ∧
      listenStep paused (Except.ok line) = ChannelStep.continueLoop paused) := by
  refine ⟨?_, ?_, ?_, ?_⟩
  · intro h
    simp [listenStep, classify, h, applyControl]
  · intro h
    simp [listenStep, classify, h, applyControl]
  · intro h
    simp [listenStep, classify, h]
  · intro h1 h2 h3
    constructor
    · simp [classify, h1, h2, h3]
    · simp [listenStep, classify, h1, h2, h3, applyControl]

/-- C6 witness: a concrete line with surrounding whitespace trims to pause
and its processing sets the flag and continues the loop. -/
theorem C6_witness :
    strTrim " pause\n" = "pause" ∧
    listenStep false (Except.ok " pause\n") = ChannelStep.continueLoop true :=
  ⟨by decide, (C6_classification " pause\n" false).1 (by decide)⟩

/-- C7: after any sequence of control messages ending in a pause or
unpause command, the flag equals exactly the value that last command
sets, whatever the earlier messages and initial value were; and repeating
the same command is idempotent: applying it a second time produces no
observable state change. -/
theorem C7_last_command_wins (cs : List ControlMessage) (c : ControlMessage)
    (b b' : Bool) (h : c = ControlMessage.pause ∨ c = ControlMessage.unpause) :
    applySeq (cs ++ [c]) b = cmdSetsTo c ∧
    applySeq (cs ++ [c, c]) b' = applySeq (cs ++ [c]) b' := by
  constructor
  · rw [applySeq, List.foldl_append]
    rcases h with h | h <;> subst h <;> rfl
  · rw [applySeq, applySeq, List.foldl_append, List.foldl_append]
    rcases h with h | h <;> subst h <;> rfl

/-- C7 witness: a concrete sequence ending in pause leaves the flag true,
and a doubled pause changes nothing. -/
theorem C7_witness :
    (ControlMessage.pause = ControlMessage.pause ∨
      ControlMessage.pause = ControlMessage.unpause) ∧
    (applySeq ([ControlMessage.unpause] ++ [ControlMessage.pause]) false =
        cmdSetsTo ControlMessage.pause ∧
      applySeq ([ControlMessage.unpause] ++ [ControlMessage.pause, ControlMessage.pause])
          true =
        applySeq ([ControlMessage.unpause] ++ [ControlMessage.pause]) true) :=
  ⟨Or.inl rfl,
    C7_last_command_wins [ControlMessage.unpause] ControlMessage.pause false true
      (Or.inl rfl)⟩

/-- C8: for a file list of size at least 1, every pseudo-random draw
selects an index strictly within bounds, so the list lookup on an
unpaused tick succeeds and the unwrap in set_loop cannot panic. -/
theorem C8_index_in_bounds (files : List String) (r : Nat)
    (h : 1 ≤ files.length) :
    r % files.length < files.length ∧
    ∃ img, setTick files false r = TickResult.invoked img ∧
      files.get? (r % files.length) = some img := by
  have hpos : 0 < files.length := h
  refine ⟨Nat.mod_lt r hpos,
    files.get ⟨r % files.length, Nat.mod_lt r hpos⟩, ?_, ?_⟩
  · simp [setTick, hpos]
  · exact List.get?_eq_get (Nat.mod_lt r hpos)

/-- C8 witness: a concrete two-element list and draw 5 select index 1 and
the lookup succeeds. -/
theorem C8_witness :
    1 ≤ (["a.png", "b.png"] : List String).length ∧
    (5 % (["a.png", "b.png"] : List String).length <
        (["a.png", "b.png"] : List String).length ∧
      ∃ img, setTick ["a.png", "b.png"] false 5 = TickResult.invoked img ∧
        (["a.png", "b.png"] : List String).get?
            (5 % (["a.png", "b.png"] : List String).length) = some img) :=
  ⟨by decide, C8_index_in_bounds ["a.png", "b.png"] 5 (by decide)⟩

/-- C9: on every tick whose pause flag reads true the cycle is skipped and
no setter is invoked; every tick yields exactly one result, and for a
nonempty file list the number of setter invocations equals the number of
ticks whose flag read false, so a skipped interval is never made up
later.  The flag value of the model is the one read at the tick boundary,
so a pause applied during a tick only shows up from the next tick on. -/
theorem C9_paused_tick_skipped (files : List String) (ticks : List (Bool × Nat)) :
    (∀ i, (ticks.get? i).map Prod.fst = some true →
      (setRun files ticks).get? i = some TickResult.skipped) ∧
    (setRun files ticks).length = ticks.length ∧
    (files ≠ [] →
      (setRun files ticks).countP TickResult.isInvoked =
        ticks.countP (fun t => !t.1)) := by
  refine ⟨?_, ?_, ?_⟩
  · intro i
    induction ticks generalizing i with
    | nil => intro h; simp at h
    | cons t rest ih =>
      intro h
      cases i with
      | zero =>
        simp only [List.get?_cons_zero, Option.map_some'] at h
        have ht : t.1 = true := by injection h
        simp [setRun, List.get?_cons_zero, setTick, ht]
      | succ i =>
        simp only [List.get?_cons_succ] at h
        simpa [setRun, List.get?_cons_succ] using ih i h
  · induction ticks with
    | nil => rfl
    | cons t rest ih => simp [setRun, ih]
  · intro hne
    have hpos : 0 < files.length := List.length_pos.mpr hne
    induction ticks with
    | nil => rfl
    | cons t rest ih =>
      cases ht : t.1 <;>
        simp [setRun, List.countP_cons, setTick, hpos, TickResult.isInvoked, ht, ih]

/-- C9 witness: with a one-element list and ticks reading true, false,
true, the paused first tick is skipped and exactly one invocation
happens. -/
theorem C9_witness :
    (setRun ["a.png"] [(true, 3), (false, 4), (true, 5)]).get? 0 =
      some TickResult.skipped ∧
    (setRun ["a.png"] [(true, 3), (false, 4), (true, 5)]).countP
        TickResult.isInvoked =
      ([(true, 3), (false, 4), (true, 5)] : List (Bool × Nat)).countP
        (fun t => !t.1) :=
  ⟨(C9_paused_tick_skipped ["a.png"] [(true, 3), (false, 4), (true, 5)]).1 0
      (by decide),
    (C9_paused_tick_skipped ["a.png"] [(true, 3), (false, 4), (true, 5)]).2.2
      (by decide)⟩

/-- C10: for each of the three commands the client writes exactly one
newline-terminated line followed by a flush and never reads, and the
daemon side, reading one line from those bytes and classifying it, gets
the same command back: encoding and decoding round-trip. -/
theorem C10_roundtrip :
    (sendActions "pause" = [IoAction.writeBytes "pause\n", IoAction.flush] ∧
      IoAction.readBytes ∉ sendActions "pause" ∧
      classify (readLine (sendWire "pause")) = ControlMessage.pause) ∧
    (sendActions "unpause" = [IoAction.writeBytes "unpause\n", IoAction.flush] ∧
      IoAction.readBytes ∉ sendActions "unpause" ∧
      classify (readLine (sendWire "unpause")) = ControlMessage.unpause) ∧
    (sendActions "kill" = [IoAction.writeBytes "kill\n", IoAction.flush] ∧
      IoAction.readBytes ∉ sendActions "kill" ∧
      classify (readLine (sendWire "kill")) = ControlMessage.kill) := by decide

end SwwwManager
